import Mathlib

/-!
Verification development for the DAACS Analytics chart-rendering core
(`static/charts.js`).  The JavaScript mappers are shallowly embedded as
Lean functions over rational numbers: a JavaScript numeric value after
`+`-coercion is modelled as `Option ℚ` where `none` stands for `NaN` or
`undefined`; absent (null/undefined) objects are modelled as `Option`;
code paths that dereference a property of `undefined` are modelled with
`Except JsError`.  The only real-valued pieces (square root and the
`n^(-1/5)` power in the Silverman bandwidth, and the kernel density
values) live in `ℝ`.
-/

namespace DAACSCharts

/-- A JavaScript number after `+` coercion: `none` models `NaN` / `undefined`. -/
abbrev JSNum := Option ℚ

/-- JavaScript truthiness of a numeric value: `0`, `NaN` and `undefined` are falsy. -/
def jsTruthy : JSNum → Bool
  | none => false
  | some v => v != 0

/-- JavaScript `a || b` on two possibly-absent numeric values. -/
def jsOrNum (a b : JSNum) : JSNum := if jsTruthy a then a else b

/-- JavaScript `a || b` where the fallback `b` is a plain number. -/
def jsOrD : JSNum → ℚ → ℚ
  | none, b => b
  | some v, b => if v = 0 then b else v

/-- JavaScript truthiness of a string: the empty string is falsy. -/
def jsTruthyS : Option String → Bool
  | none => false
  | some s => s != ""

/-- JavaScript `a || b` on two possibly-absent strings. -/
def jsOrStr (a b : Option String) : Option String := if jsTruthyS a then a else b

/-- JavaScript `a || b` where the fallback is a plain string. -/
def jsOrS (a : Option String) (b : String) : String :=
  if jsTruthyS a then a.getD b else b

/-- Model of `d3.max` on a numeric list: `undefined` on an empty list. -/
def d3max (l : List ℚ) : Option ℚ :=
  l.foldl (fun acc v => match acc with
    | none => some v
    | some m => some (max m v)) none

/-- Model of `d3.max(l, accessor)`: non-numeric accessor results are skipped. -/
def d3maxBy {α : Type} (f : α → JSNum) (l : List α) : Option ℚ :=
  d3max (l.filterMap f)

/-- Model of `d3.mean` on a numeric list: `undefined` on an empty list. -/
def d3mean (l : List ℚ) : Option ℚ :=
  if l.length = 0 then none else some (l.sum / l.length)

/-- Model of `d3.variance`: the unbiased sample variance
`Σ (x - mean)² / (n - 1)`, `undefined` when fewer than two values. -/
def d3variance (l : List ℚ) : Option ℚ :=
  if 2 ≤ l.length then
    some (((l.map (fun x => (x - l.sum / l.length) ^ 2)).sum) / ((l.length : ℚ) - 1))
  else none

/-- Model of `d3.range(start, stop, step)`: `n = max(0, ⌈(stop-start)/step⌉)`
values `start + i * step`. -/
def d3range (start stop step : ℚ) : List ℚ :=
  (List.range (max 0 ⌈(stop - start) / step⌉).toNat).map (fun (i : ℕ) => start + (i : ℚ) * step)

/-- Model of `d3.quantile` on an ascending-sorted list (R-7 interpolation,
exactly what d3 computes on already-sorted numeric data). -/
def d3quantile (V : List ℚ) (p : ℚ) : Option ℚ :=
  match V with
  | [] => none
  | v :: _ =>
    if p ≤ 0 ∨ V.length < 2 then some v
    else if 1 ≤ p then some (V.getLastD 0)
    else
      let i : ℚ := ((V.length : ℚ) - 1) * p
      let i0 : ℕ := ⌊i⌋₊
      some (V.getD i0 0 + (V.getD (i0 + 1) 0 - V.getD i0 0) * (i - (i0 : ℚ)))

/-! ## Ridgeline: category filter (`createRidgeline`, lines 411-427) -/

/-- The `seriesMap` argument of `createRidgeline`: a JavaScript object mapping
category labels to arrays of raw values (`none` models a value whose `+`
coercion is `NaN`). -/
abbrev SeriesMap := List (String × List JSNum)

/-- Model of `seriesMap[label] || []`: an absent key yields the empty array. -/
def seriesOf (m : SeriesMap) (label : String) : List JSNum :=
  (m.lookup label).getD []

/-- Model of `(seriesMap[label] || []).map(n => +n).filter(n => !Number.isNaN(n))`. -/
def numericSamples (m : SeriesMap) (label : String) : List ℚ :=
  (seriesOf m label).filterMap id

/-- The `baseFilter` predicate of `createRidgeline`: a series is kept only if
it has at least two numeric samples and at least two distinct values. -/
def baseFilter (m : SeriesMap) (label : String) : Bool :=
  let arr := numericSamples m label
  if arr.length < 2 then false
  else decide (2 ≤ arr.dedup.length)

/-- Model of `String(label).toLowerCase()`: lower-case every character. -/
def jsToLower (s : String) : String := ⟨s.data.map Char.toLower⟩

/-- The retained-category computation of `createRidgeline` (lines 422-423):
drop labels spelled `option` (case-insensitively), filter by `baseFilter`,
and fall back to the plain `baseFilter` result when nothing remains. -/
def ridgelineCategories (labels : List String) (m : SeriesMap) : List String :=
  let nonOption := (labels.filter (fun l => jsToLower l != "option")).filter (baseFilter m)
  if nonOption.length ≠ 0 then nonOption else labels.filter (baseFilter m)

/-- Modelled from the spec's wording of the retained-category rule: degenerate
series are dropped; labels equal to "option" (case-insensitively) are removed
whenever at least one other label survives the degenerate-series filter;
otherwise the "option" labels that pass the filter are kept. -/
def ridgelineCategoriesSpec (labels : List String) (m : SeriesMap) : List String :=
  if labels.any (fun l => jsToLower l != "option" && baseFilter m l) then
    labels.filter (fun l => jsToLower l != "option" && baseFilter m l)
  else
    labels.filter (baseFilter m)

/-! ## Ridgeline: pooled values, xMax, bandwidth, sample grid, KDE
(`createRidgeline`, lines 429-490) -/

/-- The `allValues` pool (lines 430-433): all numeric samples of the retained
categories, in category order. -/
def allValuesOf (labels : List String) (m : SeriesMap) : List ℚ :=
  (ridgelineCategories labels m).flatMap (numericSamples m)

/-- The `sorted` copy of the pool (line 434). -/
def sortedValuesOf (labels : List String) (m : SeriesMap) : List ℚ :=
  (allValuesOf labels m).insertionSort (· ≤ ·)

/-- Line 436: `q(0.98) || d3.max(allValues) || 1`. -/
def xMaxRawOf (labels : List String) (m : SeriesMap) : ℚ :=
  jsOrD (d3quantile (sortedValuesOf labels m) (98 / 100))
    (jsOrD (d3max (allValuesOf labels m)) 1)

/-- Line 437: `if (!xMax || xMax <= 0) xMax = 1`. -/
def xMaxOf (labels : List String) (m : SeriesMap) : ℚ :=
  if xMaxRawOf labels m ≤ 0 then 1 else xMaxRawOf labels m

/-- Line 471, inner term: `d3.variance(allValues) || 0`. -/
def pooledVariance0 (labels : List String) (m : SeriesMap) : ℚ :=
  jsOrD (d3variance (allValuesOf labels m)) 0

/-- Line 471: `Math.sqrt(d3.variance(allValues) || 0)`. -/
noncomputable def sdRawOf (labels : List String) (m : SeriesMap) : ℝ :=
  Real.sqrt ((pooledVariance0 labels m : ℚ) : ℝ)

/-- Line 471, outer fallback: `Math.sqrt(...) || (xMax / 8)`. -/
noncomputable def sdOf (labels : List String) (m : SeriesMap) : ℝ :=
  if sdRawOf labels m = 0 then ((xMaxOf labels m : ℚ) : ℝ) / 8 else sdRawOf labels m

/-- Line 472: `n = Math.max(2, allValues.length)`. -/
def nOf (labels : List String) (m : SeriesMap) : ℕ :=
  max 2 (allValuesOf labels m).length

/-- Line 473: `bwSilverman = 1.06 * sd * Math.pow(n, -1/5)`. -/
noncomputable def bwSilvermanOf (labels : List String) (m : SeriesMap) : ℝ :=
  1.06 * sdOf labels m * ((nOf labels m : ℝ) ^ (-(1 : ℝ) / 5))

/-- Line 474: `bandwidth = Math.max(0.5, Math.min(xMax / 6, bwSilverman || xMax / 10))`. -/
noncomputable def bandwidthOf (labels : List String) (m : SeriesMap) : ℝ :=
  max 0.5 (min (((xMaxOf labels m : ℚ) : ℝ) / 6)
    (if bwSilvermanOf labels m = 0 then ((xMaxOf labels m : ℚ) : ℝ) / 10
     else bwSilvermanOf labels m))

/-- Line 476: `step = xMax / samples` with `samples = 120`. -/
def stepOf (labels : List String) (m : SeriesMap) : ℚ :=
  xMaxOf labels m / 120

/-- Line 477: `sampleX = d3.range(0, xMax + step, step)`. -/
def sampleXOf (labels : List String) (m : SeriesMap) : List ℚ :=
  d3range 0 (xMaxOf labels m + stepOf labels m) (stepOf labels m)

/-- Line 487: a category's raw samples, coerced, NaN-filtered, and clipped to
`xMax` via `Math.min(v, xMax)` (clipped, not dropped). -/
def clippedSamples (labels : List String) (m : SeriesMap) (cat : String) : List ℚ :=
  (numericSamples m cat).map (fun v => min v (xMaxOf labels m))

/-- Model of `d3.mean` over real values (used inside the KDE). -/
noncomputable def d3meanR (l : List ℝ) : Option ℝ :=
  if l.length = 0 then none else some (l.sum / l.length)

/-- Lines 459-464: the scaled Epanechnikov kernel
`u ↦ |u/bw| ≤ 1 ? 0.75 * (1 - (u/bw)²) / bw : 0`. -/
noncomputable def epanechnikovKernel (bw : ℝ) (u : ℝ) : ℝ :=
  if |u / bw| ≤ 1 then 0.75 * (1 - (u / bw) * (u / bw)) / bw else 0

/-- Lines 465-467: `kernelDensityEstimator(kernel, X, V) = V.map(v => [v, mean(X, x0 => kernel(v-x0))])`. -/
noncomputable def kernelDensityEstimator (kernel : ℝ → ℝ) (X V : List ℝ) :
    List (ℝ × Option ℝ) :=
  V.map (fun v => (v, d3meanR (X.map (fun x0 => kernel (v - x0)))))

/-- Line 490: the density curve drawn for one retained category. -/
noncomputable def densityOf (labels : List String) (m : SeriesMap) (cat : String) :
    List (ℝ × Option ℝ) :=
  kernelDensityEstimator (epanechnikovKernel (bandwidthOf labels m))
    ((clippedSamples labels m cat).map (fun (q : ℚ) => (q : ℝ)))
    ((sampleXOf labels m).map (fun (q : ℚ) => (q : ℝ)))

/-! ## Shallow DOM output model

Each mapper fully replaces the contents of its target container.  We model the
resulting contents as a list of appended elements: a textual placeholder
(`p`/`div` with a message), an `svg` node carrying the number of data-bound
geometry elements it holds, or a rendered table. -/

/-- A table cell value as JavaScript sees it (`typeof cell === 'string'` is the
`str` constructor). -/
inductive Cell where
  | str (s : String)
  | num (q : ℚ)
  | boolean (b : Bool)
  deriving DecidableEq

/-- The string `td.text(cell)` would insert. -/
def cellString : Cell → String
  | .str s => s
  | .num q => toString q
  | .boolean b => if b then "true" else "false"

/-- Whether `typeof cell === 'string'`. -/
def isStringCell : Cell → Bool
  | .str _ => true
  | _ => false

/-- A rendered table cell: raw markup via `td.html` or literal text via `td.text`. -/
inductive CellElem where
  | html (s : String)
  | text (s : String)
  deriving DecidableEq

/-- Model of `s.includes(c)` for a single character: the string, viewed as its
character sequence, contains the character. -/
def stringIncludes (s : String) (c : Char) : Bool := s.data.contains c

/-- Lines 254-261: a cell is inserted as raw markup exactly when
`typeof cell === 'string' && cell.includes('<')`. -/
def cellElem (c : Cell) : CellElem :=
  if isStringCell c && stringIncludes (cellString c) '<' then CellElem.html (cellString c)
  else CellElem.text (cellString c)

/-- One element appended to a target container. -/
inductive Elem where
  | text (tag : String) (cls : String) (msg : String)
  | svg (dataElems : ℕ)
  | table (rows : List (List CellElem)) (headers : List String)
  deriving DecidableEq

/-- A JavaScript runtime error escaping a mapper. -/
inductive JsError where
  | typeError
  deriving DecidableEq

/-- Model of `container.selectAll('*').remove()`: the first statement of every
mapper, which discards the prior contents of the target unconditionally. -/
def clearAll (_prior : List Elem) : List Elem := []

/-! ## Score distribution (`createScoreDistribution`, lines 15-60) -/

/-- One bucket of `data.score_distribution`. -/
structure DistributionBucket where
  range : String
  count : JSNum
  deriving DecidableEq

/-- The `data` payload: the `score_distribution` field may itself be absent. -/
structure ScoreData where
  score_distribution : Option (List DistributionBucket)
  deriving DecidableEq

/-- Line 19: `(data && data.score_distribution) || []`. -/
def scoreDistributionOf (data : Option ScoreData) : List DistributionBucket :=
  (data.bind (fun d => d.score_distribution)).getD []

/-- Line 41: the y-domain upper bound `d3.max(distribution, d => d.count) || 1`. -/
def scoreDistYUpper (distribution : List DistributionBucket) : ℚ :=
  jsOrD (d3maxBy (fun d => d.count) distribution) 1

/-- Contents produced by `createScoreDistribution`: the empty guard (lines
20-23) or an svg with one rect per bucket (lines 50-59; axes not counted as
data geometry). -/
def createScoreDistribution (data : Option ScoreData) : List Elem :=
  let distribution := scoreDistributionOf data
  if distribution.length = 0 then [Elem.text "p" "" "No distribution data available"]
  else [Elem.svg distribution.length]

/-- The mapper as a transformer of the target surface: clear, then draw. -/
def createScoreDistributionOn (data : Option ScoreData) (prior : List Elem) : List Elem :=
  clearAll prior ++ createScoreDistribution data

/-! ## Traffic light (`renderTrafficLight`, lines 62-75) -/

/-- The `indicator` payload; the `dots` field may be absent. -/
structure TrafficIndicator where
  dots : Option (List String)
  deriving DecidableEq

/-- Line 65: `indicator?.dots || ['gray', 'gray', 'gray']` (optional chaining,
then the default; a present empty array is truthy and kept). -/
def trafficDots (indicator : Option TrafficIndicator) : List String :=
  (indicator.bind (fun i => i.dots)).getD ["gray", "gray", "gray"]

/-- Line 74: the fill lookup table with its gray fallback. -/
def trafficColor (color : String) : String :=
  jsOrS (List.lookup color
    [("green", "#22c55e"), ("yellow", "#facc15"), ("red", "#ef4444"), ("gray", "#d1d5db")])
    "#d1d5db"

/-- Lines 67-74: one circle per dot at `cx = 20 + i*35`, filled by the lookup. -/
def trafficCircles (indicator : Option TrafficIndicator) : List (ℚ × String) :=
  (trafficDots indicator).enum.map (fun p => (20 + (p.1 : ℚ) * 35, trafficColor p.2))

/-- Contents produced by `renderTrafficLight`: always a single svg whose
data-bound elements are the circles (no placeholder branch exists). -/
def renderTrafficLight (indicator : Option TrafficIndicator) : List Elem :=
  [Elem.svg (trafficCircles indicator).length]

/-- The mapper as a target transformer. -/
def renderTrafficLightOn (indicator : Option TrafficIndicator) (prior : List Elem) : List Elem :=
  clearAll prior ++ renderTrafficLight indicator

/-! ## Generic bar chart (`createBarChart`, lines 77-93) -/

/-- One series entry; every field is duck-typed and may be absent. -/
structure BarEntry where
  label : Option String := none
  date : Option String := none
  value : JSNum := none
  count : JSNum := none
  deriving DecidableEq

/-- The recognized configuration options. -/
structure BarConfig where
  emptyMessage : Option String := none
  color : Option String := none
  deriving DecidableEq

/-- Line 88 / 92: the band key `d.label || d.date`. -/
def barLabel (d : BarEntry) : Option String := jsOrStr d.label d.date

/-- Line 89 / 92: the plotted magnitude `d.value || d.count`. -/
def barValue (d : BarEntry) : JSNum := jsOrNum d.value d.count

/-- Line 89: the y-domain upper bound `d3.max(series, d => d.value || d.count) || 1`. -/
def barChartYUpper (series : List BarEntry) : ℚ :=
  jsOrD (d3maxBy barValue series) 1

/-- Line 92: the drawn bar height `height - y(d.value || d.count)` for the
inner height `360 - 20 - 40 = 300`; `none` models a NaN-positioned bar. -/
def barHeight (series : List BarEntry) (d : BarEntry) : Option ℚ :=
  (barValue d).map (fun v => v * 300 / barChartYUpper series)

/-- Contents produced by `createBarChart` (lines 80-92). -/
def createBarChart (data : Option (List BarEntry)) (config : BarConfig) : List Elem :=
  let series := data.getD []
  if series.length = 0 then
    [Elem.text "p" "" (jsOrS config.emptyMessage "No data available")]
  else [Elem.svg series.length]

/-- The mapper as a target transformer. -/
def createBarChartOn (data : Option (List BarEntry)) (config : BarConfig)
    (prior : List Elem) : List Elem :=
  clearAll prior ++ createBarChart data config

/-! ## Circular bar plot (`createCircularBarplot`, lines 95-111) -/

/-- One circular-barplot entry. -/
structure CircEntry where
  questionId : Option String := none
  label : Option String := none
  count : JSNum := none
  value : JSNum := none
  deriving DecidableEq

/-- Line 109: the radial-scale domain upper bound
`d3.max(series, d => d.count || d.value)` — note: no `|| 1` floor here. -/
def circularRadialUpper (series : List CircEntry) : Option ℚ :=
  d3maxBy (fun d => jsOrNum d.count d.value) series

/-- Contents produced by `createCircularBarplot` (lines 98-110). -/
def createCircularBarplot (data : Option (List CircEntry)) : List Elem :=
  let series := data.getD []
  if series.length = 0 then [Elem.text "p" "" "No data available"]
  else [Elem.svg series.length]

/-- The mapper as a target transformer. -/
def createCircularBarplotOn (data : Option (List CircEntry)) (prior : List Elem) : List Elem :=
  clearAll prior ++ createCircularBarplot data

/-! ## Navigation tree (`renderNavigationTree`, lines 113-239) -/

/-- One navigation event. -/
structure NavEvent where
  title : Option String := none
  url : Option String := none
  timestamp : Option String := none
  deriving DecidableEq

/-- The margins of the navigation layout (line 145). -/
structure NavMargin where
  top : ℚ
  right : ℚ
  bottom : ℚ
  left : ℚ

/-- Line 145: `margin = { top: 36, right: 80, bottom: 56, left: 80 }`. -/
def navMargin : NavMargin := ⟨36, 80, 56, 80⟩

/-- Line 143: `columnWidth = 160`. -/
def columnWidth : ℚ := 160

/-- Line 144: `rowHeight = 80`. -/
def navRowHeight : ℚ := 80

/-- Line 122: `maxSteps = 60`. -/
def maxSteps : ℕ := 60

/-- Lines 123-133: the truncated step list (`events.slice(0, maxSteps)`). -/
def navSteps (events : List NavEvent) : List NavEvent :=
  events.take maxSteps

/-- Line 131: each step's `depth` is its index. -/
def navDepth (idx : ℕ) : ℕ := idx

/-- Lines 135-141: the column holding depth `d` collects the step indices
whose depth equals `d`, in step order. -/
def navColumn (n d : ℕ) : List ℕ :=
  (List.range n).filter (fun i => navDepth i == d)

/-- Lines 152-158: a step's row index is its position within its column. -/
def navRowIdx (n i : ℕ) : ℕ :=
  (navColumn n (navDepth i)).indexOf i

/-- Line 155: `node.x = margin.left + colIdx * columnWidth`. -/
def navNodeX (i : ℕ) : ℚ := navMargin.left + (navDepth i : ℚ) * columnWidth

/-- Line 156: `node.y = margin.top + rowIdx * rowHeight`. -/
def navNodeY (n i : ℕ) : ℚ := navMargin.top + (navRowIdx n i : ℚ) * navRowHeight

/-- Lines 160-163: one link per step after the first, from its chronological
predecessor (as a pair of step indices). -/
def navLinks (n : ℕ) : List (ℕ × ℕ) :=
  (List.range (n - 1)).map (fun i => (i, i + 1))

/-- Line 195: link opacity `Math.max(0.3, 1 - (idx / steps.length) * 0.6)`. -/
def navLinkOpacity (n idx : ℕ) : ℚ :=
  max (3 / 10) (1 - ((idx : ℚ) / (n : ℚ)) * (6 / 10))

/-- Contents produced by `renderNavigationTree`: the empty guard (lines
117-120) or an svg with the nodes and links. -/
def renderNavigationTree (events : Option (List NavEvent)) : List Elem :=
  match events with
  | none => [Elem.text "div" "empty" "No navigation events in this range."]
  | some evs =>
    if evs.length = 0 then [Elem.text "div" "empty" "No navigation events in this range."]
    else [Elem.svg ((navSteps evs).length + (navLinks (navSteps evs).length).length)]

/-- The mapper as a target transformer. -/
def renderNavigationTreeOn (events : Option (List NavEvent)) (prior : List Elem) : List Elem :=
  clearAll prior ++ renderNavigationTree events

/-! ## Pairs table (`renderPairsTable`, lines 241-263) -/

/-- The table renderer.  Note the missing guard: `rows.length` is read without
a default, so an absent `rows` throws a TypeError; likewise `headers.forEach`
throws when `headers` is absent and at least one row exists. -/
def renderPairsTable (rows : Option (List (List Cell)))
    (headers : Option (List String)) : Except JsError (List Elem) :=
  match rows with
  | none => Except.error JsError.typeError
  | some rs =>
    if rs.length = 0 then Except.ok [Elem.text "div" "empty" "No data available."]
    else
      match headers with
      | none => Except.error JsError.typeError
      | some hs => Except.ok [Elem.table (rs.map (fun row => row.map cellElem)) hs]

/-- The DOM state the table renderer leaves behind (on the throwing paths the
target holds what was appended before the exception: nothing when `rows` is
absent, a table skeleton when `headers` is absent). -/
def renderPairsTableContents (rows : Option (List (List Cell)))
    (headers : Option (List String)) : List Elem :=
  match rows with
  | none => []
  | some rs =>
    if rs.length = 0 then [Elem.text "div" "empty" "No data available."]
    else
      match headers with
      | none => [Elem.table [] []]
      | some hs => [Elem.table (rs.map (fun row => row.map cellElem)) hs]

/-- The mapper as a target transformer. -/
def renderPairsTableOn (rows : Option (List (List Cell)))
    (headers : Option (List String)) (prior : List Elem) : List Elem :=
  clearAll prior ++ renderPairsTableContents rows headers

/-! ## Calendar heatmaps (lines 265-361) and dot chart (lines 363-409) -/

/-- A sparse calendar bucket (used by both heatmaps). -/
structure CalendarBucket where
  month : ℕ := 1
  day : ℕ := 1
  weekday : ℕ := 0
  count : JSNum := none
  deriving DecidableEq

/-- Lines 289 / 350: `maxCount = d3.max(data, d => d.count) || 1`. -/
def heatmapMaxCount (data : List CalendarBucket) : ℚ :=
  jsOrD (d3maxBy (fun d => d.count) data) 1

/-- Contents produced by `createMonthDayHeatmap` (lines 268-273 guard). -/
def createMonthDayHeatmap (buckets : Option (List CalendarBucket)) : List Elem :=
  let data := buckets.getD []
  if data.length = 0 then [Elem.text "div" "empty" "No login events in this range."]
  else [Elem.svg data.length]

/-- The mapper as a target transformer. -/
def createMonthDayHeatmapOn (buckets : Option (List CalendarBucket))
    (prior : List Elem) : List Elem :=
  clearAll prior ++ createMonthDayHeatmap buckets

/-- Contents produced by `createMonthWeekdayHeatmap` (lines 338-342 guard). -/
def createMonthWeekdayHeatmap (buckets : Option (List CalendarBucket)) : List Elem :=
  let data := buckets.getD []
  if data.length = 0 then [Elem.text "div" "empty" "No login events for this year."]
  else [Elem.svg data.length]

/-- The mapper as a target transformer. -/
def createMonthWeekdayHeatmapOn (buckets : Option (List CalendarBucket))
    (prior : List Elem) : List Elem :=
  clearAll prior ++ createMonthWeekdayHeatmap buckets

/-- One per-day count point of the dot chart. -/
structure DotPoint where
  day : ℚ := 1
  count : JSNum := none
  deriving DecidableEq

/-- Line 379: the y-domain upper bound `d3.max(data, d => d.count) || 1`. -/
def dotChartYUpper (data : List DotPoint) : ℚ :=
  jsOrD (d3maxBy (fun d => d.count) data) 1

/-- Contents produced by `createDotChartDaily` (lines 366-371 guard). -/
def createDotChartDaily (series : Option (List DotPoint)) : List Elem :=
  let data := series.getD []
  if data.length = 0 then [Elem.text "div" "empty" "No data available."]
  else [Elem.svg data.length]

/-- The mapper as a target transformer. -/
def createDotChartDailyOn (series : Option (List DotPoint)) (prior : List Elem) : List Elem :=
  clearAll prior ++ createDotChartDaily series

/-! ## Ridgeline entry point (`createRidgeline`, lines 411-427) with the
absent-argument behaviour -/

/-- The full ridgeline entry point.  `labels || Object.keys(seriesMap || {})`
resolves the category list; when `seriesMap` is absent, the first `baseFilter`
call dereferences `undefined[label]` and throws, which happens exactly when
the resolved category list is non-empty. -/
def createRidgeline (labels : Option (List String)) (seriesMap : Option SeriesMap) :
    Except JsError (List Elem) :=
  match seriesMap with
  | some m =>
    let categories := ridgelineCategories (labels.getD (m.map Prod.fst)) m
    if categories.length < 1 then Except.ok [Elem.text "div" "empty" "No data available."]
    else Except.ok [Elem.svg (4 * categories.length)]
  | none =>
    if (labels.getD []).length = 0 then
      Except.ok [Elem.text "div" "empty" "No data available."]
    else Except.error JsError.typeError

/-- The DOM state the ridgeline leaves behind (nothing was appended yet when
the `seriesMap` dereference throws). -/
def createRidgelineContents (labels : Option (List String))
    (seriesMap : Option SeriesMap) : List Elem :=
  match createRidgeline labels seriesMap with
  | Except.ok out => out
  | Except.error _ => []

/-- The mapper as a target transformer. -/
def createRidgelineOn (labels : Option (List String)) (seriesMap : Option SeriesMap)
    (prior : List Elem) : List Elem :=
  clearAll prior ++ createRidgelineContents labels seriesMap

/-! ## Theorems -/

lemma filter_length_ne_zero_iff_any {α : Type} (f : α → Bool) (l : List α) :
    ((l.filter f).length ≠ 0) ↔ (l.any f = true) := by
  rw [Ne, List.length_eq_zero, List.filter_eq_nil_iff, List.any_eq_true]
  constructor
  · intro h
    push_neg at h
    obtain ⟨a, ha, hfa⟩ := h
    exact ⟨a, ha, by simpa using hfa⟩
  · rintro ⟨a, ha, hfa⟩ h
    exact (h a ha) hfa

/-- C1.  For every ridgeline call with category labels and a series map, the
retained category list equals the caller-order labels with every degenerate
series (fewer than 2 numeric samples or fewer than 2 distinct values) dropped,
with labels spelled "option" (case-insensitively) removed whenever some other
label survives the filter and kept otherwise; in particular a `[10,10]` series
is dropped (one distinct value) and `[10,10,10,20]` is kept. -/
theorem ridgelineCategories_matches_spec :
    (∀ (labels : List String) (m : SeriesMap),
      ridgelineCategories labels m = ridgelineCategoriesSpec labels m)
    ∧ baseFilter [("b", [some 10, some 10])] "b" = false
    ∧ baseFilter [("b", [some 10, some 10, some 10, some 20])] "b" = true := by
  refine ⟨fun labels m => ?_, by decide, by decide⟩
  simp only [ridgelineCategories, ridgelineCategoriesSpec]
  rw [List.filter_filter]
  have hpred : (fun l => baseFilter m l && (jsToLower l != "option"))
      = (fun l => jsToLower l != "option" && baseFilter m l) := by
    funext l; exact Bool.and_comm _ _
  rw [hpred]
  exact if_congr (by rw [filter_length_ne_zero_iff_any]) rfl rfl

/-- C7.  For every traffic-light input the number of rendered circles equals
the length of the dots sequence; an absent indicator or absent dots field
defaults to three gray circles; and any color token outside
{green, yellow, red, gray} renders as gray (the call is total, so it never
errors on malformed input). -/
theorem trafficLight_count_and_colors :
    (∀ indicator : Option TrafficIndicator,
      (trafficCircles indicator).length = (trafficDots indicator).length)
    ∧ trafficDots none = ["gray", "gray", "gray"]
    ∧ trafficDots (some ⟨none⟩) = ["gray", "gray", "gray"]
    ∧ (trafficCircles none).map Prod.snd = ["#d1d5db", "#d1d5db", "#d1d5db"]
    ∧ (∀ c : String, c ∉ (["green", "yellow", "red", "gray"] : List String) →
        trafficColor c = "#d1d5db") := by
  refine ⟨fun indicator => ?_, by decide, by decide, by decide, fun c hc => ?_⟩
  · simp [trafficCircles]
  · simp only [List.mem_cons, List.not_mem_nil, or_false, not_or] at hc
    obtain ⟨h1, h2, h3, h4⟩ := hc
    simp [trafficColor, List.lookup, jsOrS, jsTruthyS,
      beq_eq_false_iff_ne.mpr h1, beq_eq_false_iff_ne.mpr h2,
      beq_eq_false_iff_ne.mpr h3, beq_eq_false_iff_ne.mpr h4]

/-- Witness for C7 at the concrete token "purple". -/
theorem trafficLight_count_and_colors_witness :
    ("purple" ∉ (["green", "yellow", "red", "gray"] : List String))
    ∧ trafficColor "purple" = "#d1d5db" :=
  ⟨by decide, trafficLight_count_and_colors.2.2.2.2 "purple" (by decide)⟩

/-- C8.  A table cell is inserted as raw unescaped markup if and only if it is
a string containing a literal less-than character; every other cell is
inserted as literal text; in particular for rows
`[["Alice","90"],["Bob","<b>85</b>"]]` only the second row's second cell is
markup. -/
theorem pairsTable_markup_iff_string_with_lt :
    (∀ c : Cell, (∃ s, cellElem c = CellElem.html s)
      ↔ (∃ s, c = Cell.str s ∧ stringIncludes s '<' = true))
    ∧ renderPairsTable
        (some [[Cell.str "Alice", Cell.str "90"], [Cell.str "Bob", Cell.str "<b>85</b>"]])
        (some ["Name", "Score"])
      = Except.ok [Elem.table
          [[CellElem.text "Alice", CellElem.text "90"],
           [CellElem.text "Bob", CellElem.html "<b>85</b>"]] ["Name", "Score"]] := by
  refine ⟨?_, rfl⟩
  · intro c
    cases c with
    | str s =>
      by_cases h : stringIncludes s '<'
      · simp [cellElem, isStringCell, cellString, h]
      · simp [cellElem, isStringCell, cellString, h]
    | num q => simp [cellElem, isStringCell, cellString]
    | boolean b => simp [cellElem, isStringCell, cellString]

/-- C9.  Every mapper first removes all existing content of its target
before drawing, so the contents after a call are independent of the prior
contents, and re-rendering is idempotent: calling the mapper twice in a row
leaves the target identical to calling it once. -/
theorem mappers_clear_first_idempotent :
    (∀ d t t', createScoreDistributionOn d t = createScoreDistributionOn d t')
    ∧ (∀ d t, createScoreDistributionOn d (createScoreDistributionOn d t)
        = createScoreDistributionOn d t)
    ∧ (∀ d t t', renderTrafficLightOn d t = renderTrafficLightOn d t')
    ∧ (∀ d t, renderTrafficLightOn d (renderTrafficLightOn d t) = renderTrafficLightOn d t)
    ∧ (∀ d cfg t t', createBarChartOn d cfg t = createBarChartOn d cfg t')
    ∧ (∀ d cfg t, createBarChartOn d cfg (createBarChartOn d cfg t) = createBarChartOn d cfg t)
    ∧ (∀ d t t', createCircularBarplotOn d t = createCircularBarplotOn d t')
    ∧ (∀ d t, createCircularBarplotOn d (createCircularBarplotOn d t)
        = createCircularBarplotOn d t)
    ∧ (∀ d t t', renderNavigationTreeOn d t = renderNavigationTreeOn d t')
    ∧ (∀ d t, renderNavigationTreeOn d (renderNavigationTreeOn d t) = renderNavigationTreeOn d t)
    ∧ (∀ rows hs t t', renderPairsTableOn rows hs t = renderPairsTableOn rows hs t')
    ∧ (∀ rows hs t, renderPairsTableOn rows hs (renderPairsTableOn rows hs t)
        = renderPairsTableOn rows hs t)
    ∧ (∀ d t t', createMonthDayHeatmapOn d t = createMonthDayHeatmapOn d t')
    ∧ (∀ d t, createMonthDayHeatmapOn d (createMonthDayHeatmapOn d t)
        = createMonthDayHeatmapOn d t)
    ∧ (∀ d t t', createMonthWeekdayHeatmapOn d t = createMonthWeekdayHeatmapOn d t')
    ∧ (∀ d t, createMonthWeekdayHeatmapOn d (createMonthWeekdayHeatmapOn d t)
        = createMonthWeekdayHeatmapOn d t)
    ∧ (∀ d t t', createDotChartDailyOn d t = createDotChartDailyOn d t')
    ∧ (∀ d t, createDotChartDailyOn d (createDotChartDailyOn d t) = createDotChartDailyOn d t)
    ∧ (∀ ls sm t t', createRidgelineOn ls sm t = createRidgelineOn ls sm t')
    ∧ (∀ ls sm t, createRidgelineOn ls sm (createRidgelineOn ls sm t)
        = createRidgelineOn ls sm t) :=
  ⟨fun _ _ _ => rfl, fun _ _ => rfl, fun _ _ _ => rfl, fun _ _ => rfl,
   fun _ _ _ _ => rfl, fun _ _ _ => rfl, fun _ _ _ => rfl, fun _ _ => rfl,
   fun _ _ _ => rfl, fun _ _ => rfl, fun _ _ _ _ => rfl, fun _ _ _ => rfl,
   fun _ _ _ => rfl, fun _ _ => rfl, fun _ _ _ => rfl, fun _ _ => rfl,
   fun _ _ _ => rfl, fun _ _ => rfl, fun _ _ _ _ => rfl, fun _ _ _ => rfl⟩

/-- C10.  In the generic bar chart the plotted magnitude is selected by
JavaScript truthiness fallback `value || count`, so a falsy `value` (such as
0) makes the bar use `count` instead of zero; the entry
`{label, value: 0, count: 5}` draws with the same height as an entry of
magnitude 5, and the same fallback applies to `label || date`. -/
theorem barChart_truthiness_fallback :
    (∀ d : BarEntry, jsTruthy d.value = false → barValue d = d.count)
    ∧ (∀ d : BarEntry, jsTruthyS d.label = false → barLabel d = d.date)
    ∧ barValue { label := some "L", value := some 0, count := some 5 } = some 5
    ∧ barHeight [{ label := some "L", value := some 0, count := some 5 }]
        { label := some "L", value := some 0, count := some 5 } = some 300
    ∧ barHeight [{ label := some "L", value := some 5 }]
        { label := some "L", value := some 5 } = some 300 := by
  refine ⟨fun d h => ?_, fun d h => ?_, ?_, ?_, ?_⟩
  · simp [barValue, jsOrNum, h]
  · simp [barLabel, jsOrStr, h]
  · simp [barValue, jsOrNum, jsTruthy]
  · norm_num [barHeight, barValue, barChartYUpper, jsOrNum, jsTruthy, jsOrD,
      d3maxBy, d3max, List.filterMap]
  · norm_num [barHeight, barValue, barChartYUpper, jsOrNum, jsTruthy, jsOrD,
      d3maxBy, d3max, List.filterMap]

/-- Witness for C10 at the concrete entry with a zero value and count 5. -/
theorem barChart_truthiness_fallback_witness :
    jsTruthy ({ label := some "L", value := some 0, count := some 5 } : BarEntry).value = false
    ∧ barValue { label := some "L", value := some 0, count := some 5 }
      = ({ label := some "L", value := some 0, count := some 5 } : BarEntry).count :=
  ⟨by simp [jsTruthy], barChart_truthiness_fallback.1 _ (by simp [jsTruthy])⟩

lemma navColumn_eq_singleton {n i : ℕ} (h : i < n) : navColumn n i = [i] := by
  have hcount : (List.range n).count i = 1 :=
    List.count_eq_one_of_mem (List.nodup_range n) (List.mem_range.mpr h)
  have : (List.range n).filter (fun j => j == i) = List.replicate ((List.range n).count i) i :=
    List.filter_beq (List.range n) i
  simp only [navColumn, navDepth, this, hcount, List.replicate_one]

lemma navRowIdx_eq_zero {n i : ℕ} (h : i < n) : navRowIdx n i = 0 := by
  simp [navRowIdx, navDepth, navColumn_eq_singleton h, List.indexOf_cons_self]

/-- C4.  For every non-empty event list the navigation layout places node `i`
at `x = margin.left + i*160` (strictly increasing) and identical
`y = margin.top`, truncates to at most 60 steps, and produces exactly `n-1`
links where link `i` joins step `i` to step `i+1` and has opacity
`max(0.3, 1 - (i/n)*0.6)`. -/
theorem navigation_layout_positions_links (events : List NavEvent) (h : events ≠ []) :
    (navSteps events).length = min events.length 60
    ∧ (∀ i : ℕ, navNodeX i = navMargin.left + (i : ℚ) * 160)
    ∧ (∀ i j : ℕ, i < j → navNodeX i < navNodeX j)
    ∧ (∀ i : ℕ, i < (navSteps events).length →
        navNodeY (navSteps events).length i = navMargin.top)
    ∧ (navLinks (navSteps events).length).length = (navSteps events).length - 1
    ∧ (∀ i : ℕ, i < (navSteps events).length - 1 →
        (navLinks (navSteps events).length)[i]? = some (i, i + 1)
        ∧ navLinkOpacity (navSteps events).length i
          = max (3 / 10) (1 - ((i : ℚ) / ((navSteps events).length : ℚ)) * (6 / 10))) := by
  refine ⟨?_, fun i => rfl, fun i j hij => ?_, fun i hi => ?_, ?_, fun i hi => ⟨?_, rfl⟩⟩
  · simp [navSteps, maxSteps, Nat.min_comm]
  · have : (i : ℚ) * 160 < (j : ℚ) * 160 := by
      have : (i : ℚ) < (j : ℚ) := by exact_mod_cast hij
      linarith
    simp only [navNodeX, navDepth, navMargin, columnWidth]
    linarith
  · simp [navNodeY, navRowIdx_eq_zero hi]
  · simp [navLinks]
  · rw [navLinks, List.getElem?_map, List.getElem?_range hi]
    rfl

/-- Witness for C4 at a concrete list of five events. -/
theorem navigation_layout_positions_links_witness :
    (([⟨none, none, none⟩, ⟨none, none, none⟩, ⟨none, none, none⟩,
       ⟨none, none, none⟩, ⟨none, none, none⟩] : List NavEvent) ≠ [])
    ∧ ((navSteps [⟨none, none, none⟩, ⟨none, none, none⟩, ⟨none, none, none⟩,
          ⟨none, none, none⟩, ⟨none, none, none⟩]).length
        = min ([⟨none, none, none⟩, ⟨none, none, none⟩, ⟨none, none, none⟩,
          ⟨none, none, none⟩, ⟨none, none, none⟩] : List NavEvent).length 60
    ∧ (∀ i : ℕ, navNodeX i = navMargin.left + (i : ℚ) * 160)
    ∧ (∀ i j : ℕ, i < j → navNodeX i < navNodeX j)
    ∧ (∀ i : ℕ, i < (navSteps [⟨none, none, none⟩, ⟨none, none, none⟩, ⟨none, none, none⟩,
          ⟨none, none, none⟩, ⟨none, none, none⟩]).length →
        navNodeY (navSteps [⟨none, none, none⟩, ⟨none, none, none⟩, ⟨none, none, none⟩,
          ⟨none, none, none⟩, ⟨none, none, none⟩]).length i = navMargin.top)
    ∧ (navLinks (navSteps [⟨none, none, none⟩, ⟨none, none, none⟩, ⟨none, none, none⟩,
          ⟨none, none, none⟩, ⟨none, none, none⟩]).length).length
        = (navSteps [⟨none, none, none⟩, ⟨none, none, none⟩, ⟨none, none, none⟩,
          ⟨none, none, none⟩, ⟨none, none, none⟩]).length - 1
    ∧ (∀ i : ℕ, i < (navSteps [⟨none, none, none⟩, ⟨none, none, none⟩, ⟨none, none, none⟩,
          ⟨none, none, none⟩, ⟨none, none, none⟩]).length - 1 →
        (navLinks (navSteps [⟨none, none, none⟩, ⟨none, none, none⟩, ⟨none, none, none⟩,
          ⟨none, none, none⟩, ⟨none, none, none⟩]).length)[i]? = some (i, i + 1)
        ∧ navLinkOpacity (navSteps [⟨none, none, none⟩, ⟨none, none, none⟩, ⟨none, none, none⟩,
            ⟨none, none, none⟩, ⟨none, none, none⟩]).length i
          = max (3 / 10) (1 - ((i : ℚ) / ((navSteps [⟨none, none, none⟩, ⟨none, none, none⟩,
              ⟨none, none, none⟩, ⟨none, none, none⟩, ⟨none, none, none⟩]).length : ℚ)) * (6 / 10)))) :=
  ⟨by simp, navigation_layout_positions_links _ (by simp)⟩

/-- C5 counterexample.  The table renderer reads `rows.length` without a
guard, so calling it with absent rows throws a TypeError: an exception does
escape a mapper of the rendering core, contrary to the claim. -/
theorem renderPairsTable_throws_on_absent_rows :
    renderPairsTable none (some ["Name", "Score"]) = Except.error JsError.typeError := rfl

/-- C5 amended.  Every mapper called with empty-but-present input completes
without throwing and emits exactly its designated empty-state placeholder with
zero data geometry — except the traffic light, which has no placeholder branch
and draws an svg with zero circles.  Absent (null/undefined) input is
tolerated by every mapper except the table renderer, which throws when `rows`
is absent, and the ridgeline, which throws when labels are present but the
series map is absent. -/
theorem mappers_empty_state_behavior :
    createScoreDistribution none = [Elem.text "p" "" "No distribution data available"]
    ∧ createScoreDistribution (some ⟨some []⟩)
        = [Elem.text "p" "" "No distribution data available"]
    ∧ createScoreDistribution (some ⟨none⟩)
        = [Elem.text "p" "" "No distribution data available"]
    ∧ renderTrafficLight (some ⟨some []⟩) = [Elem.svg 0]
    ∧ (∀ cfg : BarConfig, createBarChart none cfg
        = [Elem.text "p" "" (jsOrS cfg.emptyMessage "No data available")])
    ∧ createBarChart (some []) ⟨none, none⟩ = [Elem.text "p" "" "No data available"]
    ∧ createCircularBarplot none = [Elem.text "p" "" "No data available"]
    ∧ createCircularBarplot (some []) = [Elem.text "p" "" "No data available"]
    ∧ renderNavigationTree none = [Elem.text "div" "empty" "No navigation events in this range."]
    ∧ renderNavigationTree (some [])
        = [Elem.text "div" "empty" "No navigation events in this range."]
    ∧ (∀ hs, renderPairsTable (some []) hs
        = Except.ok [Elem.text "div" "empty" "No data available."])
    ∧ createMonthDayHeatmap none = [Elem.text "div" "empty" "No login events in this range."]
    ∧ createMonthDayHeatmap (some [])
        = [Elem.text "div" "empty" "No login events in this range."]
    ∧ createMonthWeekdayHeatmap none
        = [Elem.text "div" "empty" "No login events for this year."]
    ∧ createMonthWeekdayHeatmap (some [])
        = [Elem.text "div" "empty" "No login events for this year."]
    ∧ createDotChartDaily none = [Elem.text "div" "empty" "No data available."]
    ∧ createDotChartDaily (some []) = [Elem.text "div" "empty" "No data available."]
    ∧ createRidgeline none none = Except.ok [Elem.text "div" "empty" "No data available."]
    ∧ createRidgeline (some []) (some [])
        = Except.ok [Elem.text "div" "empty" "No data available."]
    ∧ createRidgeline none (some [])
        = Except.ok [Elem.text "div" "empty" "No data available."]
    ∧ (∀ hs, renderPairsTable none hs = Except.error JsError.typeError)
    ∧ createRidgeline (some ["A"]) none = Except.error JsError.typeError :=
  ⟨rfl, rfl, rfl, rfl, fun _ => rfl, rfl, rfl, rfl, rfl, rfl, fun _ => rfl,
   rfl, rfl, rfl, rfl, rfl, rfl, rfl, rfl, rfl, fun _ => rfl, rfl⟩

lemma jsOrD_ne_zero (a : JSNum) {b : ℚ} (hb : b ≠ 0) : jsOrD a b ≠ 0 := by
  cases a with
  | none => simpa [jsOrD] using hb
  | some v =>
    by_cases hv : v = 0
    · simpa [jsOrD, hv] using hb
    · simpa [jsOrD, hv] using hv

/-- C6 counterexample.  The circular bar plot's radial scale has no `|| 1`
floor: for a series whose only entry has `count = 0` and `value = 0` the
radial domain upper bound is 0, a degenerate `[0, 0]` domain, contrary to the
claim that every numeric domain in the rendering core is floored. -/
theorem circularBarplot_radial_domain_degenerate :
    circularRadialUpper [{ questionId := some "q1", count := some 0, value := some 0 }]
      = some 0 := by
  simp [circularRadialUpper, d3maxBy, d3max, jsOrNum, jsTruthy, List.filterMap]

/-- C6 amended.  The `max(value) || 1` floor holds for the score distribution,
the generic bar chart, both calendar heatmaps and the dot chart, whose linear
y-domain upper bounds are never 0 (and are 1 on empty or all-zero input); the
circular bar plot's radial domain lacks the floor. -/
theorem floored_domains_nonzero :
    (∀ distribution : List DistributionBucket, scoreDistYUpper distribution ≠ 0)
    ∧ (∀ series : List BarEntry, barChartYUpper series ≠ 0)
    ∧ (∀ data : List CalendarBucket, heatmapMaxCount data ≠ 0)
    ∧ (∀ data : List DotPoint, dotChartYUpper data ≠ 0)
    ∧ scoreDistYUpper [{ range := "0-10", count := some 0 }] = 1
    ∧ scoreDistYUpper [] = 1
    ∧ barChartYUpper [] = 1
    ∧ heatmapMaxCount [{ month := 1, day := 1, count := some 0 }] = 1
    ∧ dotChartYUpper [] = 1 := by
  refine ⟨fun _ => jsOrD_ne_zero _ one_ne_zero, fun _ => jsOrD_ne_zero _ one_ne_zero,
    fun _ => jsOrD_ne_zero _ one_ne_zero, fun _ => jsOrD_ne_zero _ one_ne_zero, ?_, ?_, ?_, ?_, ?_⟩
  · simp [scoreDistYUpper, d3maxBy, d3max, jsOrD, List.filterMap]
  · simp [scoreDistYUpper, d3maxBy, d3max, jsOrD, List.filterMap]
  · simp [barChartYUpper, d3maxBy, d3max, jsOrD, List.filterMap]
  · simp [heatmapMaxCount, d3maxBy, d3max, jsOrD, List.filterMap]
  · simp [dotChartYUpper, d3maxBy, d3max, jsOrD, List.filterMap]

lemma xMaxOf_pos (labels : List String) (m : SeriesMap) : 0 < xMaxOf labels m := by
  by_cases h : xMaxRawOf labels m ≤ 0
  · simp [xMaxOf, h]
  · simp only [xMaxOf, h, if_false]
    linarith [not_le.mp h]

lemma stepOf_pos (labels : List String) (m : SeriesMap) : 0 < stepOf labels m :=
  div_pos (xMaxOf_pos labels m) (by norm_num)

lemma sampleXOf_eq (labels : List String) (m : SeriesMap) :
    sampleXOf labels m = (List.range 121).map (fun (i : ℕ) => (i : ℚ) * stepOf labels m) := by
  have hx : xMaxOf labels m ≠ 0 := ne_of_gt (xMaxOf_pos labels m)
  have hdiv : (xMaxOf labels m + stepOf labels m - 0) / stepOf labels m = 121 := by
    simp only [stepOf, sub_zero]
    field_simp
    ring
  unfold sampleXOf d3range
  rw [hdiv]
  have h121 : (max 0 ⌈(121 : ℚ)⌉).toNat = 121 := by
    rw [show (121 : ℚ) = ((121 : ℤ) : ℚ) by norm_num, Int.ceil_intCast]
    rfl
  rw [h121]
  simp only [zero_add]

lemma sampleXOf_length (labels : List String) (m : SeriesMap) :
    (sampleXOf labels m).length = 121 := by
  rw [sampleXOf_eq, List.length_map, List.length_range]

/-- C3 counterexample.  For a concrete call with a retained category the KDE
sample grid has 121 points, not the 120 the claim states: `d3.range(0,
xMax+step, step)` with `step = xMax/120` includes both endpoints. -/
theorem ridgeline_sample_count_is_121_not_120 :
    ridgelineCategories ["A"] [("A", [some 1, some 2, some 3, some 4])] ≠ []
    ∧ (sampleXOf ["A"] [("A", [some 1, some 2, some 3, some 4])]).length ≠ 120 := by
  refine ⟨by decide, ?_⟩
  rw [sampleXOf_length]
  norm_num

/-- C3 amended.  For every ridgeline call the Epanechnikov density of each
category is evaluated at exactly 121 evenly spaced points `i * (xMax/120)`,
`i = 0..120`, spanning `[0, xMax]` inclusive, and every sample value is
clipped to `xMax` by `min` (position-by-position, never dropped) before
estimation. -/
theorem ridgeline_sample_grid_and_clipping :
    ∀ (labels : List String) (m : SeriesMap),
    sampleXOf labels m = (List.range 121).map (fun (i : ℕ) => (i : ℚ) * (xMaxOf labels m / 120))
    ∧ (sampleXOf labels m).length = 121
    ∧ (0 : ℚ) ∈ sampleXOf labels m
    ∧ xMaxOf labels m ∈ sampleXOf labels m
    ∧ (∀ (cat : String) (i : ℕ),
        (clippedSamples labels m cat)[i]?
          = ((numericSamples m cat)[i]?).map (fun v => min v (xMaxOf labels m)))
    ∧ (∀ cat : String,
        (densityOf labels m cat).map Prod.fst
          = (sampleXOf labels m).map (fun (q : ℚ) => (q : ℝ)))
    ∧ (∀ cat : String, (densityOf labels m cat).length = 121) := by
  intro labels m
  refine ⟨by rw [sampleXOf_eq]; rfl, sampleXOf_length labels m, ?_, ?_, ?_, ?_, ?_⟩
  · rw [sampleXOf_eq]
    refine List.mem_map.mpr ⟨0, List.mem_range.mpr ?_, ?_⟩
    · norm_num
    · norm_num
  · rw [sampleXOf_eq]
    refine List.mem_map.mpr ⟨120, List.mem_range.mpr ?_, ?_⟩
    · norm_num
    · show (120 : ℕ) * stepOf labels m = xMaxOf labels m
      simp only [stepOf]
      push_cast
      field_simp
  · intro cat i
    simp [clippedSamples, List.getElem?_map]
  · intro cat
    unfold densityOf kernelDensityEstimator
    rw [List.map_map]
    exact List.map_id' _
  · intro cat
    unfold densityOf kernelDensityEstimator
    rw [List.length_map, List.length_map, sampleXOf_length]

lemma mem_ridgelineCategories_baseFilter {labels : List String} {m : SeriesMap} {c : String}
    (hc : c ∈ ridgelineCategories labels m) : baseFilter m c = true := by
  simp only [ridgelineCategories] at hc
  by_cases h : ((labels.filter (fun l => jsToLower l != "option")).filter (baseFilter m)).length ≠ 0
  · rw [if_pos h] at hc
    exact (List.mem_filter.mp hc).2
  · rw [if_neg h] at hc
    exact (List.mem_filter.mp hc).2

lemma dedup_two_distinct {l : List ℚ} (h : 2 ≤ l.dedup.length) :
    ∃ a ∈ l, ∃ b ∈ l, a ≠ b := by
  match hd : l.dedup with
  | [] => rw [hd] at h; simp at h
  | [x] => rw [hd] at h; simp at h
  | x :: y :: t =>
    have hnd : l.dedup.Nodup := l.nodup_dedup
    rw [hd] at hnd
    have hxy : x ≠ y := by
      intro he
      subst he
      exact (List.nodup_cons.mp hnd).1 (List.mem_cons_self _ _)
    have hx : x ∈ l := List.mem_dedup.mp (by rw [hd]; exact List.mem_cons_self _ _)
    have hy : y ∈ l :=
      List.mem_dedup.mp (by rw [hd]; exact List.mem_cons_of_mem _ (List.mem_cons_self _ _))
    exact ⟨x, hx, y, hy, hxy⟩

lemma baseFilter_two_distinct {m : SeriesMap} {c : String} (h : baseFilter m c = true) :
    ∃ a ∈ numericSamples m c, ∃ b ∈ numericSamples m c, a ≠ b := by
  simp only [baseFilter] at h
  by_cases hl : (numericSamples m c).length < 2
  · rw [if_pos hl] at h
    cases h
  · rw [if_neg hl] at h
    exact dedup_two_distinct (of_decide_eq_true h)

lemma mem_allValuesOf {labels : List String} {m : SeriesMap} {c : String}
    (hc : c ∈ ridgelineCategories labels m) {x : ℚ} (hx : x ∈ numericSamples m c) :
    x ∈ allValuesOf labels m := by
  simp only [allValuesOf, List.mem_flatMap]
  exact ⟨c, hc, hx⟩

lemma two_le_length_of_two_mem {α : Type} {l : List α} {a b : α} (ha : a ∈ l) (hb : b ∈ l)
    (hab : a ≠ b) : 2 ≤ l.length := by
  match l with
  | [] => cases ha
  | [x] =>
    rw [List.mem_singleton] at ha hb
    exact absurd (ha.trans hb.symm) hab
  | x :: y :: t =>
    simp only [List.length_cons]
    omega

lemma list_sum_pos_of_mem {l : List ℚ} (h0 : ∀ x ∈ l, 0 ≤ x) {a : ℚ} (ha : a ∈ l)
    (hpos : 0 < a) : 0 < l.sum := by
  induction l with
  | nil => cases ha
  | cons y t ih =>
    rw [List.sum_cons]
    rcases List.mem_cons.mp ha with h | h
    · subst h
      have ht : 0 ≤ t.sum := List.sum_nonneg (fun x hx => h0 x (List.mem_cons_of_mem _ hx))
      linarith
    · have hy : 0 ≤ y := h0 y (List.mem_cons_self _ _)
      have := ih (fun x hx => h0 x (List.mem_cons_of_mem _ hx)) h
      linarith

lemma d3variance_pos {l : List ℚ} {a b : ℚ} (ha : a ∈ l) (hb : b ∈ l) (hab : a ≠ b) :
    ∃ v : ℚ, d3variance l = some v ∧ 0 < v := by
  have hlen : 2 ≤ l.length := two_le_length_of_two_mem ha hb hab
  have hne : a ≠ l.sum / l.length ∨ b ≠ l.sum / l.length := by
    by_contra hcon
    push_neg at hcon
    exact hab (hcon.1.trans hcon.2.symm)
  have key : ∀ x : ℚ, x ∈ l → x ≠ l.sum / l.length →
      0 < (l.map (fun x => (x - l.sum / l.length) ^ 2)).sum := by
    intro x hxl hxμ
    have h0 : ∀ y ∈ l.map (fun x => (x - l.sum / l.length) ^ 2), 0 ≤ y := by
      intro y hy
      obtain ⟨z, _, rfl⟩ := List.mem_map.mp hy
      exact sq_nonneg _
    have hmem : (x - l.sum / l.length) ^ 2 ∈ l.map (fun x => (x - l.sum / l.length) ^ 2) :=
      List.mem_map_of_mem _ hxl
    have hne0 : x - l.sum / l.length ≠ 0 := sub_ne_zero.mpr hxμ
    have hp : 0 < (x - l.sum / l.length) ^ 2 :=
      lt_of_le_of_ne (sq_nonneg _) (Ne.symm (pow_ne_zero 2 hne0))
    exact list_sum_pos_of_mem h0 hmem hp
  have hS : 0 < (l.map (fun x => (x - l.sum / l.length) ^ 2)).sum := by
    rcases hne with h | h
    · exact key a ha h
    · exact key b hb h
  refine ⟨(l.map (fun x => (x - l.sum / l.length) ^ 2)).sum / ((l.length : ℚ) - 1), ?_, ?_⟩
  · simp only [d3variance]
    rw [if_pos hlen]
  · have hd : 0 < (l.length : ℚ) - 1 := by
      have : (2 : ℚ) ≤ (l.length : ℚ) := by exact_mod_cast hlen
      linarith
    exact div_pos hS hd

/-- C2 amended.  For every ridgeline call with at least one retained category
the bandwidth equals Silverman's value `1.06 * stddev(pooled) * n^(-1/5)`
clamped as `max(0.5, min(xMax/6, ·))` (none of the code's degenerate fallbacks
fires, and `n` is the pooled sample count); consequently `0.5 ≤ bandwidth`
always, and `bandwidth ≤ xMax/6` whenever `xMax ≥ 3` — but not in general,
since for `xMax < 3` the lower clamp wins. -/
theorem ridgeline_bandwidth_clamped (labels : List String) (m : SeriesMap)
    (h : ridgelineCategories labels m ≠ []) :
    ∃ v : ℚ, d3variance (allValuesOf labels m) = some v ∧ 0 < v
      ∧ bandwidthOf labels m
        = max 0.5 (min (((xMaxOf labels m : ℚ) : ℝ) / 6)
            (1.06 * Real.sqrt ((v : ℚ) : ℝ)
              * (((allValuesOf labels m).length : ℝ) ^ (-(1 : ℝ) / 5))))
      ∧ (0.5 : ℝ) ≤ bandwidthOf labels m
      ∧ (3 ≤ xMaxOf labels m → bandwidthOf labels m ≤ ((xMaxOf labels m : ℚ) : ℝ) / 6) := by
  obtain ⟨c, hc⟩ := List.exists_mem_of_ne_nil _ h
  have hbf := mem_ridgelineCategories_baseFilter hc
  obtain ⟨a, ha, b, hb, hab⟩ := baseFilter_two_distinct hbf
  have haA := mem_allValuesOf hc ha
  have hbA := mem_allValuesOf hc hb
  have hlen2 : 2 ≤ (allValuesOf labels m).length := two_le_length_of_two_mem haA hbA hab
  obtain ⟨v, hveq, hvpos⟩ := d3variance_pos haA hbA hab
  have hpv : pooledVariance0 labels m = v := by
    simp [pooledVariance0, hveq, jsOrD, ne_of_gt hvpos]
  have hsdraw : sdRawOf labels m = Real.sqrt ((v : ℚ) : ℝ) := by
    unfold sdRawOf
    rw [hpv]
  have hsdpos : 0 < sdRawOf labels m := by
    rw [hsdraw]
    exact Real.sqrt_pos.mpr (by exact_mod_cast hvpos)
  have hsd : sdOf labels m = Real.sqrt ((v : ℚ) : ℝ) := by
    unfold sdOf
    rw [if_neg hsdpos.ne', hsdraw]
  have hn : nOf labels m = (allValuesOf labels m).length := by
    unfold nOf
    omega
  have hbw : bwSilvermanOf labels m
      = 1.06 * Real.sqrt ((v : ℚ) : ℝ)
        * (((allValuesOf labels m).length : ℝ) ^ (-(1 : ℝ) / 5)) := by
    unfold bwSilvermanOf
    rw [hsd, hn]
  have hbwpos : 0 < bwSilvermanOf labels m := by
    rw [hbw]
    have h2 : (0 : ℝ) < Real.sqrt ((v : ℚ) : ℝ) := Real.sqrt_pos.mpr (by exact_mod_cast hvpos)
    have h3 : (0 : ℝ) < ((allValuesOf labels m).length : ℝ) ^ (-(1 : ℝ) / 5) := by
      apply Real.rpow_pos_of_pos
      have hp : 0 < (allValuesOf labels m).length := by omega
      exact_mod_cast hp
    have h1 : (0 : ℝ) < 1.06 := by norm_num
    exact mul_pos (mul_pos h1 h2) h3
  refine ⟨v, hveq, hvpos, ?_, le_max_left _ _, fun h3 => ?_⟩
  · unfold bandwidthOf
    rw [if_neg hbwpos.ne', hbw]
  · have h36 : (0.5 : ℝ) ≤ ((xMaxOf labels m : ℚ) : ℝ) / 6 := by
      have : (3 : ℝ) ≤ ((xMaxOf labels m : ℚ) : ℝ) := by exact_mod_cast h3
      linarith
    exact max_le h36 (min_le_left _ _)

/-- Witness for C2 at a concrete retained category with samples 1 and 2. -/
theorem ridgeline_bandwidth_clamped_witness :
    ridgelineCategories ["A"] [("A", [some 1, some 2])] ≠ []
    ∧ (∃ v : ℚ, d3variance (allValuesOf ["A"] [("A", [some 1, some 2])]) = some v ∧ 0 < v
      ∧ bandwidthOf ["A"] [("A", [some 1, some 2])]
        = max 0.5 (min (((xMaxOf ["A"] [("A", [some 1, some 2])] : ℚ) : ℝ) / 6)
            (1.06 * Real.sqrt ((v : ℚ) : ℝ)
              * (((allValuesOf ["A"] [("A", [some 1, some 2])]).length : ℝ) ^ (-(1 : ℝ) / 5))))
      ∧ (0.5 : ℝ) ≤ bandwidthOf ["A"] [("A", [some 1, some 2])]
      ∧ (3 ≤ xMaxOf ["A"] [("A", [some 1, some 2])] →
          bandwidthOf ["A"] [("A", [some 1, some 2])]
            ≤ ((xMaxOf ["A"] [("A", [some 1, some 2])] : ℚ) : ℝ) / 6)) :=
  ⟨by decide, ridgeline_bandwidth_clamped _ _ (by decide)⟩

lemma sortedValues_example :
    sortedValuesOf ["A"] [("A", [some 1, some 2])] = [1, 2] := by decide

lemma quantile_example : d3quantile [1, 2] (98 / 100) = some (99 / 50) := by
  have hfl : ⌊(49 / 50 : ℚ)⌋₊ = 0 := by
    rw [Nat.floor_eq_zero]
    norm_num
  simp only [d3quantile, List.length_cons, List.length_nil]
  norm_num [hfl, List.getD, List.getElem?_cons_zero, List.getElem?_cons_succ]

lemma xMax_example : xMaxOf ["A"] [("A", [some 1, some 2])] = 99 / 50 := by
  have hraw : xMaxRawOf ["A"] [("A", [some 1, some 2])] = 99 / 50 := by
    simp only [xMaxRawOf, sortedValues_example, quantile_example, jsOrD]
    norm_num
  simp only [xMaxOf, hraw]
  norm_num

/-- C2 counterexample.  For a ridgeline call whose pooled samples are `[1, 2]`
the 98th percentile gives `xMax = 1.98`, so `xMax/6 = 0.33 < 0.5` and the
lower clamp wins: the bandwidth is not ≤ `xMax/6`, refuting the claim that
`0.5 ≤ bandwidth ≤ xMax/6` always holds. -/
theorem ridgeline_bandwidth_exceeds_xMax_div_six :
    ¬ (bandwidthOf ["A"] [("A", [some 1, some 2])]
        ≤ ((xMaxOf ["A"] [("A", [some 1, some 2])] : ℚ) : ℝ) / 6) := by
  intro hle
  have hb : (0.5 : ℝ) ≤ bandwidthOf ["A"] [("A", [some 1, some 2])] := le_max_left _ _
  rw [xMax_example] at hle
  push_cast at hle
  linarith

end DAACSCharts
